import Mathlib

/-!
# Verification of `boss_crawl.py` (SpiderHub)

A shallow embedding of `src/boss_crawl/boss_crawl.py` and proofs of the
specification's claims about it.

The page driver (Playwright) is external: we model each driver interaction
by an explicit outcome value.  All Python-level control flow (bare
`except:` handlers, early `return`s, the login polling loop, the main
orchestration loop) is translated faithfully from the source.
-/

namespace BossCrawl

/-- Outcome of one `element.text_content()` call on a DOM element:
the call may raise a driver error (`err`), return Python `None` (`null`),
or return a string. -/
inductive TextRead where
  | err : TextRead
  | null : TextRead
  | text : String → TextRead
deriving DecidableEq, Repr

/-- Outcome of one `page.query_selector(selector)` call followed, when an
element is found, by reading its text: the query may raise (`qerr`),
return `None` (`absent`), or find an element whose text read then
behaves as the given `TextRead`. -/
inductive QueryOutcome where
  | qerr : QueryOutcome
  | absent : QueryOutcome
  | found : TextRead → QueryOutcome
deriving DecidableEq, Repr

/-- Python's `str.strip()` with no argument: remove leading and
trailing whitespace characters. -/
def pyStrip (s : String) : String :=
  ⟨((s.data.dropWhile Char.isWhitespace).reverse.dropWhile Char.isWhitespace).reverse⟩

/-- `BossJobDetailCrawler._extract_text` (lines 165-174).  The whole body
is inside `try: ... except: pass` followed by `return ""`, so every
driver failure and every absence yields the empty string; a found text
`t` is returned as `t.strip() if t else ""`. -/
def extractText : QueryOutcome → String
  | .qerr => ""
  | .absent => ""
  | .found .err => ""
  | .found .null => ""
  | .found (.text s) => if s = "" then "" else pyStrip s

/-- The text a query outcome carries, when the driver neither raised nor
found the element/text missing.  Used to state the field-read contract. -/
def textOf : QueryOutcome → Option String
  | .qerr => none
  | .absent => none
  | .found .err => none
  | .found .null => none
  | .found (.text s) => some s

/-- Outcome of `page.query_selector_all('.job-tags span')`: either the
query raises, or it returns a list of elements, each with its own
`text_content()` behaviour. -/
inductive TagsQuery where
  | qerr : TagsQuery
  | elems : List TextRead → TagsQuery
deriving DecidableEq, Repr

/-- The element loop of `_extract_tags` (lines 181-184).  The `for` loop
runs inside the single `try:`; a raising `text_content()` aborts the
loop and the `except: pass` returns the tags accumulated so far.  A
`None` text or an empty/whitespace-only text is skipped
(`if tag_text and tag_text.strip():`), otherwise the stripped text is
appended. -/
def collectTags : List TextRead → List String
  | [] => []
  | .err :: _ => []
  | .null :: rest => collectTags rest
  | .text s :: rest =>
      if s ≠ "" ∧ pyStrip s ≠ "" then pyStrip s :: collectTags rest
      else collectTags rest

/-- `BossJobDetailCrawler._extract_tags` (lines 176-187): if the
`query_selector_all` itself raises, the empty accumulator is returned. -/
def extractTags : TagsQuery → List String
  | .qerr => []
  | .elems es => collectTags es

/-- A record value: Python record fields hold either a string or (for
`tags`) a list of strings. -/
inductive RVal where
  | vs : String → RVal
  | vlist : List String → RVal
deriving DecidableEq, Repr

/-- An extraction record: a Python dict in insertion order, modelled as
an association list with distinct keys. -/
abbrev Record := List (String × RVal)

/-- Dict key lookup. -/
def rlookup (r : Record) (k : String) : Option RVal :=
  List.lookup k r

/-- The per-target DOM read results consumed by the success path of
`extract_job_details` (lines 130-147): one `QueryOutcome` per field
selector, plus the tag query. -/
structure PageRead where
  title : QueryOutcome
  salary : QueryOutcome
  city : QueryOutcome
  experience : QueryOutcome
  education : QueryOutcome
  company : QueryOutcome
  companyType : QueryOutcome
  companySize : QueryOutcome
  jobDescription : QueryOutcome
  tags : TagsQuery

/-- The behaviour of the driver for one target: either the overall
attempt raises an uncaught exception whose `str(e)` is `msg` (the
navigation/`goto` phase — every later field read is internally
protected), together with the outcome of the subsequent
`page.screenshot` call in the `except` handler (`none` = the screenshot
succeeds, `some m` = the screenshot itself raises with message `m`);
or navigation succeeds and the page yields the given reads.  The inner
`wait_for_selector('.job-banner')` timeout is absorbed by its own
`except` (line 126) and does not influence the record, so it is not
modelled. -/
inductive Behavior where
  | raise : String → Option String → Behavior
  | page : PageRead → Behavior

/-- The successful record built at lines 130-147, keys in Python dict
insertion order; `tags` is added only when the extracted list is
non-empty (`if tags:`). -/
def successRecord (url now : String) (p : PageRead) : Record :=
  [("url", .vs url),
   ("title", .vs (extractText p.title)),
   ("salary", .vs (extractText p.salary)),
   ("city", .vs (extractText p.city)),
   ("experience", .vs (extractText p.experience)),
   ("education", .vs (extractText p.education)),
   ("company", .vs (extractText p.company)),
   ("company_type", .vs (extractText p.companyType)),
   ("company_size", .vs (extractText p.companySize)),
   ("job_description", .vs (extractText p.jobDescription)),
   ("extracted_at", .vs now)]
  ++ (if extractTags p.tags ≠ [] then [("tags", .vlist (extractTags p.tags))] else [])

/-- The failed record built in the `except` handler (lines 159-163). -/
def failedRecord (url msg now : String) : Record :=
  [("url", .vs url), ("error", .vs msg), ("extracted_at", .vs now)]

/-- Result of one `extract_job_details` call: either a record is
returned, or an exception escapes the coroutine (this happens exactly
when the `except` handler's own `page.screenshot` call raises, since
that call is not protected). -/
inductive ExtractResult where
  | record : Record → ExtractResult
  | raised : String → ExtractResult
deriving DecidableEq, Repr

/-- `BossJobDetailCrawler.extract_job_details` (lines 114-163).  `now`
stands for the `datetime.now().isoformat()` string of this call. -/
def extractJobDetails (url now : String) : Behavior → ExtractResult
  | .page p => .record (successRecord url now p)
  | .raise msg sshot =>
      match sshot with
      | none => .record (failedRecord url msg now)
      | some m => .raised m

/-- Outcome of one `page.query_selector(indicator)` probe inside
`ensure_logged_in`: the call may raise (treated as "indicator absent"
by the surrounding `try/except: continue`), return `None`, or return
an element. -/
inductive ProbeOutcome where
  | err : ProbeOutcome
  | absent : ProbeOutcome
  | found : ProbeOutcome
deriving DecidableEq, Repr

/-- The driver's probe behaviour across the login check: `probe r i` is
the outcome of probing the `i`-th of the three login indicators during
round `r` (`r = 0` is the initial check at lines 81-89; `r = 1, …, 60`
are the polling iterations at lines 97-107). -/
abbrev LoginProbe := Nat → Fin 3 → ProbeOutcome

/-- Whether one round's inner indicator loop observes a logged-in
state: the loop returns as soon as any of the three indicators yields
an element; a raising probe is skipped (`except: continue`). -/
def roundHit (probe : LoginProbe) (r : Nat) : Bool :=
  (List.finRange 3).any fun i => probe r i = ProbeOutcome.found

/-- The polling loop of `ensure_logged_in` (lines 97-110): `k`
iterations remain, the current round index is `r`; each iteration
sleeps, re-probes all indicators, and returns `True` on a hit; when the
60 iterations are exhausted the function returns `False`. -/
def pollLogin (probe : LoginProbe) : Nat → Nat → Bool
  | _, 0 => false
  | r, k + 1 => if roundHit probe r then true else pollLogin probe (r + 1) k

/-- `BossJobDetailCrawler.ensure_logged_in` (lines 65-112): the initial
indicator check, then — if nothing matched — the operator prompt
(`input(...)`, assumed answered) followed by up to 60 polling rounds. -/
def ensureLoggedIn (probe : LoginProbe) : Bool :=
  if roundHit probe 0 then true else pollLogin probe 1 60

/-- The environment of one run of `main`: the parsed `job_links` list,
the driver's login-probe behaviour, the driver behaviour `behavior i`
for the `i`-th target, and the `datetime.now().isoformat()` string
`now i` observed while processing the `i`-th target. -/
structure Env where
  jobLinks : List String
  loginProbe : LoginProbe
  behavior : Nat → Behavior
  now : Nat → String

/-- The extraction loop of `main` (lines 237-251), processing the
targets in input order starting at index `i`: each record returned by
`extract_job_details` is appended to `all_job_details`; if the call
raises instead (screenshot failure inside the handler), the exception
propagates out of `main` and the loop stops — the second component
carries the escaping message. -/
def runLoop (env : Env) : Nat → List String → List Record × Option String
  | _, [] => ([], none)
  | i, url :: rest =>
      match extractJobDetails url (env.now i) (env.behavior i) with
      | .record r =>
          match runLoop env (i + 1) rest with
          | (rs, e) => (r :: rs, e)
      | .raised m => ([], some m)

/-- How one run of `main` ends.  `noTargets`: the early `return` at
line 213, before the crawler is even constructed.  `loginTimeout`:
`ensure_logged_in` returned `False`, so `main` closes the crawler and
returns (lines 227-229) with no target processed.  `aborted`: an
exception escaped the extraction loop; the records accumulated so far
are lost and `crawler.close()` is never reached.  `completed`: all
targets processed; the result is written, the summary printed, and the
crawler closed (lines 253-290). -/
inductive RunOutcome where
  | noTargets : RunOutcome
  | loginTimeout : RunOutcome
  | aborted : List Record → String → RunOutcome
  | completed : List Record → RunOutcome
deriving DecidableEq, Repr

/-- `main` (lines 198-290), starting from an existing configuration
(config-file reading and `crawler.start()` are assumed to succeed; the
claims under verification all start after that point). -/
def runMain (env : Env) : RunOutcome :=
  if env.jobLinks.isEmpty then .noTargets
  else if ensureLoggedIn env.loginProbe = false then .loginTimeout
  else
    match runLoop env 0 env.jobLinks with
    | (rs, some m) => .aborted rs m
    | (rs, none) => .completed rs

/-- Whether the run ever reached `crawler.start()` (line 224): only the
empty-target early return precedes it. -/
def sessionStarted : RunOutcome → Bool
  | .noTargets => false
  | _ => true

/-- Whether `crawler.close()` ran on this exit path.  The source calls
it at line 228 (login timeout) and line 290 (normal completion); there
is no `try/finally`, and the `except` clauses of the `__main__` block
(lines 293-299) only log, so an exception escaping the loop or the
write step leaves the browser open. -/
def sessionClosed : RunOutcome → Bool
  | .loginTimeout => true
  | .completed _ => true
  | _ => false

/-- Whether the Result Writer (the save block at lines 253-280) ran. -/
def writerInvoked : RunOutcome → Bool
  | .completed _ => true
  | _ => false

/-- The final counts printed at lines 283-287: successes are the
records without an `error` key, failures the remainder. -/
def summaryOf (records : List Record) : Nat × Nat :=
  (records.countP (fun r => (rlookup r "error").isNone),
   records.length - records.countP (fun r => (rlookup r "error").isNone))

/-- `str(value)` as the `csv` module applies it to each cell: a string
is written as itself; the `tags` list is rendered to its Python repr
(whose exact shape is irrelevant to every claim — only that absent
fields become empty cells matters). -/
def showRVal : RVal → String
  | .vs s => s
  | .vlist l => toString l

/-- The field-name computation of the CSV branch (lines 268-271): a
`set()` updated with every record's keys, then `sorted`.  The Python
set is modelled as a `Finset String`; `sorted` as `Finset.sort` by the
string order. -/
def fieldnamesOf (records : List Record) : List String :=
  (records.foldl (fun (s : Finset String) (r : Record) => s ∪ (r.map Prod.fst).toFinset) ∅).sort (· ≤ ·)

/-- One data row written by `csv.DictWriter.writerow` (line 278): one
cell per header, in header order; a key the record lacks becomes the
writer's default `restval`, the empty string. -/
def rowOf (headers : List String) (r : Record) : List String :=
  headers.map fun h => (rlookup r h).elim "" showRVal

/-- The full CSV output (lines 274-278): `writeheader()` then one row
per record. -/
def csvExport (records : List Record) : List (List String) :=
  fieldnamesOf records :: records.map (rowOf (fieldnamesOf records))

/-! ## Spec-side definitions and shape predicates -/

/-- The text a tag element carries, if its read neither raises nor
returns `None`. -/
def textOfRead : TextRead → Option String
  | .err => none
  | .null => none
  | .text s => some s

/-- Tag extraction as claim C8 words it: the trimmed texts of exactly
the elements whose text is non-empty after trimming, in document
order, duplicates preserved.  Stated from the spec for comparison with
`collectTags`. -/
def specTags (es : List TextRead) : List String :=
  ((es.filterMap textOfRead).map pyStrip).filter (· ≠ "")

/-- All content-field keys of a record (everything except `url`,
`error` and `extracted_at`). -/
def contentKeys : List String :=
  ["title", "salary", "city", "experience", "education", "company",
   "company_type", "company_size", "job_description", "tags"]

/-- The nine always-string content keys of a successful record (all
content keys except the conditional `tags`). -/
def nineKeys : List String :=
  ["title", "salary", "city", "experience", "education", "company",
   "company_type", "company_size", "job_description"]

/-- The error message a record carries, when its `error` key is
present (it is always a string value in the source). -/
def errorMsg (r : Record) : Option String :=
  match rlookup r "error" with
  | some (.vs m) => some m
  | _ => none

/-- The "successful" record shape of the spec's invariant: no `error`
key; `url` and `extracted_at` present. -/
def successShape (r : Record) : Prop :=
  rlookup r "error" = none ∧ (rlookup r "url").isSome ∧ (rlookup r "extracted_at").isSome

/-- The "failed" record shape: `error` key present with a string
description; `url` and `extracted_at` present; no content key
present. -/
def failedShape (r : Record) : Prop :=
  (errorMsg r).isSome ∧ (rlookup r "url").isSome ∧ (rlookup r "extracted_at").isSome ∧
    ∀ k ∈ contentKeys, rlookup r k = none

/-- The failed shape as claim C6 states it, with a non-empty error
description. -/
def failedShapeNonEmptyError (r : Record) : Prop :=
  failedShape r ∧ errorMsg r ≠ some ""

/-- A driver behaviour under which `extract_job_details` returns a
record rather than letting an exception escape: either the extraction
attempt succeeds, or the diagnostic screenshot taken in the `except`
handler succeeds. -/
def noPropagate : Behavior → Prop
  | .raise _ (some _) => False
  | _ => True

/-! ## Concrete fixtures -/

/-- A page on which every field query finds nothing and the tag query
raises. -/
def bareRead : PageRead :=
  ⟨.absent, .absent, .absent, .absent, .absent, .absent, .absent, .absent, .absent, .qerr⟩

/-- A run environment with no targets at all. -/
def emptyEnv : Env :=
  { jobLinks := [], loginProbe := fun _ _ => .found,
    behavior := fun _ => .page bareRead, now := fun _ => "t" }

/-- A logged-in run over one target whose extraction raises and whose
diagnostic screenshot also raises. -/
def abortEnv : Env :=
  { jobLinks := ["https://www.zhipin.com/job_detail/a.html"],
    loginProbe := fun _ _ => .found,
    behavior := fun _ => .raise "navigation error" (some "screenshot error"),
    now := fun _ => "t" }

/-- A logged-in run over one target whose extraction raises but whose
diagnostic screenshot succeeds. -/
def okEnv : Env :=
  { jobLinks := ["https://www.zhipin.com/job_detail/a.html"],
    loginProbe := fun _ _ => .found,
    behavior := fun _ => .raise "navigation error" none,
    now := fun _ => "t" }

/-- A logged-in run over two targets, each of which fails with a
successful diagnostic screenshot. -/
def twoEnv : Env :=
  { jobLinks := ["https://a.example", "https://b.example"],
    loginProbe := fun _ _ => .found,
    behavior := fun _ => .raise "timeout" none,
    now := fun _ => "t" }

/-- A run environment whose login probes always raise, so that no
indicator is ever observed. -/
def noLoginEnv : Env :=
  { jobLinks := ["https://a.example"],
    loginProbe := fun _ _ => .err,
    behavior := fun _ => .page bareRead, now := fun _ => "t" }

/-- Two small records used to exercise the CSV export. -/
def demoRecords : List Record :=
  [[("b", .vs "1"), ("a", .vs "2")], [("c", .vs "3"), ("a", .vs "4")]]

/-! ## Theorems -/

/-- Claim C7: the field accessor `_extract_text` is total — it is a
plain function into `String`, every driver failure or element absence
yields the empty string, and a found text is returned with surrounding
whitespace trimmed. -/
theorem c7_extract_text_total (q : QueryOutcome) :
    extractText q = ((textOf q).map pyStrip).getD "" := by
  cases q with
  | qerr => rfl
  | absent => rfl
  | found t =>
      cases t with
      | err => rfl
      | null => rfl
      | text s =>
          by_cases h : s = ""
          · subst h; rfl
          · simp [extractText, textOf, h]

/-- Claim C1 counterexample: when the extraction attempt raises and
the diagnostic screenshot call in the handler also raises, the
screenshot's exception escapes `extract_job_details` — the failed
record carrying the original error is NOT returned, contradicting the
claim that screenshot failure never masks the original error. -/
theorem c1_counterexample :
    extractJobDetails "https://a.example" "t"
        (.raise "navigation error" (some "screenshot error"))
      = .raised "screenshot error" ∧
    extractJobDetails "https://a.example" "t"
        (.raise "navigation error" (some "screenshot error"))
      ≠ .record (failedRecord "https://a.example" "navigation error" "t") := by
  exact ⟨rfl, by decide⟩

/-- Claim C1, amended: on an uncaught extraction error a diagnostic
screenshot is attempted; when the screenshot succeeds, a failed record
carrying the error's description is returned, but when the screenshot
call itself raises, that exception propagates and no record is
returned — the original error is masked (the screenshot call at line
156 is not wrapped in its own try/except). -/
theorem c1_screenshot_isolation (url now msg m : String) :
    extractJobDetails url now (.raise msg none) = .record (failedRecord url msg now) ∧
    rlookup (failedRecord url msg now) "error" = some (.vs msg) ∧
    extractJobDetails url now (.raise msg (some m)) = .raised m :=
  ⟨rfl, rfl, rfl⟩

/-- Claim C8 counterexample: a raising `text_content()` in the middle
of the element loop aborts the loop (the single `try:` wraps the whole
loop), so the returned list is only the prefix collected so far, not
the full filtered list the claim describes. -/
theorem c8_counterexample :
    extractTags (.elems [.text "a", .err, .text "b"]) = ["a"] ∧
    specTags [.text "a", .err, .text "b"] = ["a", "b"] ∧
    extractTags (.elems [.text "a", .err, .text "b"])
      ≠ specTags [.text "a", .err, .text "b"] := by
  decide

/-- Claim C8, amended: provided no element's text read raises, the
extracted tag list is exactly the trimmed texts of the elements whose
text is non-empty after trimming, in document order, duplicates
preserved; a raising read truncates the list to the prefix collected
before it. -/
theorem c8_tags_filter (es : List TextRead) (h : TextRead.err ∉ es) :
    collectTags es = specTags es := by
  induction es with
  | nil => rfl
  | cons t rest ih =>
      have hrest : TextRead.err ∉ rest := fun hm => h (List.mem_cons_of_mem _ hm)
      cases t with
      | err => exact absurd (List.mem_cons_self _ _) h
      | null =>
          simpa [collectTags, specTags, textOfRead] using ih hrest
      | text s =>
          have htrim : s = "" → pyStrip s = "" := fun he => by rw [he]; rfl
          by_cases hs : pyStrip s = ""
          · have hc : ¬ (s ≠ "" ∧ pyStrip s ≠ "") := fun hc => hc.2 hs
            simpa [collectTags, specTags, textOfRead, hs, hc] using ih hrest
          · have hc : s ≠ "" ∧ pyStrip s ≠ "" := ⟨fun he => hs (htrim he), hs⟩
            simpa [collectTags, specTags, textOfRead, hs, hc] using ih hrest

/-- Claim C8 witness for the amended statement. -/
theorem c8_tags_filter_witness :
    TextRead.err ∉ ([.text " a ", .null, .text "  ", .text "b", .text "b"] : List TextRead) ∧
    collectTags [.text " a ", .null, .text "  ", .text "b", .text "b"]
      = specTags [.text " a ", .null, .text "  ", .text "b", .text "b"] :=
  ⟨by decide, c8_tags_filter _ (by decide)⟩

/-- Claim C10: every successful record carries all nine string content
keys (a field that was absent on the page is represented by the empty
string, not an omitted key), and the `tags` key is present exactly when
the extracted tag list is non-empty. -/
theorem c10_success_record_keys (url now : String) (p : PageRead) :
    (∀ k ∈ nineKeys, ∃ s : String, rlookup (successRecord url now p) k = some (.vs s)) ∧
    rlookup (successRecord url now p) "tags"
      = if extractTags p.tags = [] then none else some (.vlist (extractTags p.tags)) := by
  constructor
  · intro k hk
    fin_cases hk
    · exact ⟨extractText p.title, rfl⟩
    · exact ⟨extractText p.salary, rfl⟩
    · exact ⟨extractText p.city, rfl⟩
    · exact ⟨extractText p.experience, rfl⟩
    · exact ⟨extractText p.education, rfl⟩
    · exact ⟨extractText p.company, rfl⟩
    · exact ⟨extractText p.companyType, rfl⟩
    · exact ⟨extractText p.companySize, rfl⟩
    · exact ⟨extractText p.jobDescription, rfl⟩
  · by_cases h : extractTags p.tags = []
    · simp [successRecord, rlookup, h]
    · simp [successRecord, rlookup, h]
      rfl

/-- Claim C10 witness: the theorem instantiated on a page where every
field query finds nothing and the tag query raises. -/
theorem c10_success_record_keys_witness :
    (∃ s : String, rlookup (successRecord "u" "t" bareRead) "title" = some (.vs s)) ∧
    rlookup (successRecord "u" "t" bareRead) "tags"
      = if extractTags bareRead.tags = [] then none
        else some (.vlist (extractTags bareRead.tags)) :=
  ⟨(c10_success_record_keys "u" "t" bareRead).1 "title" (by decide),
   (c10_success_record_keys "u" "t" bareRead).2⟩

/-- A successful record never has an `error` key: the lookup passes
the eleven fixed keys and then the optional `tags` entry. -/
lemma successRecord_error_none (url now : String) (p : PageRead) :
    rlookup (successRecord url now p) "error" = none := by
  unfold successRecord rlookup
  by_cases h : extractTags p.tags = []
  · rw [if_neg (fun hne => hne h)]
    rfl
  · rw [if_pos h]
    rfl

/-- A successful record carries no error message. -/
lemma successRecord_errorMsg (url now : String) (p : PageRead) :
    errorMsg (successRecord url now p) = none := by
  unfold errorMsg
  rw [successRecord_error_none]

/-- A successful record has the successful shape. -/
lemma successRecord_shape (url now : String) (p : PageRead) :
    successShape (successRecord url now p) :=
  ⟨successRecord_error_none url now p, rfl, rfl⟩

/-- A failed record has the failed shape: error message present, `url`
and `extracted_at` present, and no content key. -/
lemma failedRecord_shape (url msg now : String) :
    failedShape (failedRecord url msg now) := by
  refine ⟨rfl, rfl, rfl, ?_⟩
  intro k hk
  fin_cases hk <;> rfl

/-- Claim C6 counterexample: a driver exception whose string form is
empty (Python allows `Exception("")`) yields a failed record whose
`error` value is the empty string; that record matches neither the
successful shape nor the claim's failed shape with a non-empty error
description. -/
theorem c6_counterexample :
    extractJobDetails "https://a.example" "t" (.raise "" none)
      = .record (failedRecord "https://a.example" "" "t") ∧
    ¬ (successShape (failedRecord "https://a.example" "" "t") ∨
       failedShapeNonEmptyError (failedRecord "https://a.example" "" "t")) := by
  refine ⟨rfl, ?_⟩
  unfold successShape failedShapeNonEmptyError failedShape errorMsg
  decide

/-- Claim C6, amended: every record returned by `extract_job_details`
has exactly one of the two shapes — successful (no `error` key, `url`
and `extracted_at` present) or failed (`error` key present carrying
the error's string form, which may be the empty string, `url` and
`extracted_at` present, no content key present); no record mixes the
shapes. -/
theorem c6_record_shapes (url now : String) (b : Behavior) (r : Record)
    (h : extractJobDetails url now b = .record r) :
    (successShape r ∧ ¬ failedShape r) ∨ (failedShape r ∧ ¬ successShape r) := by
  cases b with
  | page p =>
      have hr : successRecord url now p = r := by
        simpa [extractJobDetails] using h
      subst hr
      left
      refine ⟨successRecord_shape url now p, fun hf => ?_⟩
      have h1 := hf.1
      rw [successRecord_errorMsg] at h1
      simp at h1
  | raise msg sshot =>
      cases sshot with
      | none =>
          have hr : failedRecord url msg now = r := by
            simpa [extractJobDetails] using h
          subst hr
          right
          refine ⟨failedRecord_shape url msg now, fun hs => ?_⟩
          have h1 := hs.1
          exact Option.noConfusion h1
      | some m => simp [extractJobDetails] at h

/-- Claim C6 witness for the amended statement, on a failed
extraction with a successful screenshot. -/
theorem c6_record_shapes_witness :
    (successShape (failedRecord "u" "boom" "t") ∧ ¬ failedShape (failedRecord "u" "boom" "t")) ∨
    (failedShape (failedRecord "u" "boom" "t") ∧ ¬ successShape (failedRecord "u" "boom" "t")) :=
  c6_record_shapes "u" "t" (.raise "boom" none) (failedRecord "u" "boom" "t") rfl

/-- The polling loop succeeds exactly when some remaining round
observes an indicator. -/
lemma pollLogin_eq_true_iff (probe : LoginProbe) :
    ∀ (k r : Nat), pollLogin probe r k = true ↔ ∃ j, j < k ∧ roundHit probe (r + j) = true := by
  intro k
  induction k with
  | zero => intro r; simp [pollLogin]
  | succ k ih =>
      intro r
      by_cases h : roundHit probe r
      · constructor
        · intro _
          exact ⟨0, Nat.succ_pos k, by simpa using h⟩
        · intro _
          simp [pollLogin, h]
      · have hcond : pollLogin probe r (k + 1) = pollLogin probe (r + 1) k := by
          simp [pollLogin, h]
        rw [hcond, ih (r + 1)]
        constructor
        · rintro ⟨j, hj, hh⟩
          refine ⟨j + 1, by omega, ?_⟩
          rw [show r + (j + 1) = r + 1 + j by omega]
          exact hh
        · rintro ⟨j, hj, hh⟩
          cases j with
          | zero => exact absurd (by simpa using hh) h
          | succ j' =>
              refine ⟨j', by omega, ?_⟩
              rw [show r + 1 + j' = r + (j' + 1) by omega]
              exact hh

/-- Claim C5: `ensure_logged_in` returns `true` exactly when some
login indicator is observed in the initial check (round 0) or one of
the 60 polling rounds; when it returns `false`, `main` closes the
session and processes no target (the run ends as `loginTimeout`,
whose exit path calls `crawler.close()` and never reaches the
extraction loop or the writer). -/
theorem c5_login_polling (env : Env) (hne : env.jobLinks ≠ []) :
    (ensureLoggedIn env.loginProbe = true ↔
      ∃ r, r ≤ 60 ∧ roundHit env.loginProbe r = true) ∧
    (ensureLoggedIn env.loginProbe = false →
      runMain env = .loginTimeout ∧ sessionClosed (runMain env) = true ∧
      writerInvoked (runMain env) = false) := by
  have hempty : env.jobLinks.isEmpty = false := by
    cases hl : env.jobLinks with
    | nil => exact absurd hl hne
    | cons a l => rfl
  constructor
  · by_cases h0 : roundHit env.loginProbe 0
    · have htrue : ensureLoggedIn env.loginProbe = true := by simp [ensureLoggedIn, h0]
      rw [htrue]
      exact ⟨fun _ => ⟨0, by omega, h0⟩, fun _ => rfl⟩
    · have hcond : ensureLoggedIn env.loginProbe = pollLogin env.loginProbe 1 60 := by
        simp [ensureLoggedIn, h0]
      rw [hcond, pollLogin_eq_true_iff]
      constructor
      · rintro ⟨j, hj, hh⟩
        exact ⟨1 + j, by omega, hh⟩
      · rintro ⟨r, hr, hh⟩
        cases r with
        | zero => exact absurd hh h0
        | succ r' =>
            refine ⟨r', by omega, ?_⟩
            rw [show 1 + r' = r' + 1 by omega]
            exact hh
  · intro hfalse
    refine ⟨?_, ?_, ?_⟩ <;>
      simp [runMain, hempty, hfalse, sessionClosed, writerInvoked]

/-- Claim C5 witness: a run whose login probes always raise — no
indicator is ever observed, `ensure_logged_in` returns `false`, and
the run ends as a closed login timeout. -/
theorem c5_login_polling_witness :
    ((ensureLoggedIn noLoginEnv.loginProbe = true ↔
        ∃ r, r ≤ 60 ∧ roundHit noLoginEnv.loginProbe r = true) ∧
      (ensureLoggedIn noLoginEnv.loginProbe = false →
        runMain noLoginEnv = .loginTimeout ∧ sessionClosed (runMain noLoginEnv) = true ∧
        writerInvoked (runMain noLoginEnv) = false)) :=
  c5_login_polling noLoginEnv (by decide)

/-- Claim C2 counterexample: with an empty target list `main` logs an
error and returns at line 213, before the crawler is even constructed
— the Result Writer is never invoked and no summary is printed,
contradicting the claim that a zero-row output file and a 0/0 summary
are produced. -/
theorem c2_counterexample :
    runMain emptyEnv = .noTargets ∧ writerInvoked (runMain emptyEnv) = false ∧
    sessionStarted (runMain emptyEnv) = false ∧
    runMain emptyEnv ≠ .completed [] := by
  refine ⟨rfl, rfl, rfl, ?_⟩
  decide

/-- Claim C2, amended: for the empty target list the run terminates
immediately as a reported no-op — before the browser is started — with
no records, no Result Writer invocation, no output file and no
summary. -/
theorem c2_empty_targets (env : Env) (h : env.jobLinks = []) :
    runMain env = .noTargets ∧ writerInvoked (runMain env) = false ∧
    sessionStarted (runMain env) = false := by
  have hempty : env.jobLinks.isEmpty = true := by rw [h]; rfl
  refine ⟨?_, ?_, ?_⟩ <;> simp [runMain, hempty, writerInvoked, sessionStarted]

/-- Claim C2 witness for the amended statement. -/
theorem c2_empty_targets_witness :
    runMain emptyEnv = .noTargets ∧ writerInvoked (runMain emptyEnv) = false ∧
    sessionStarted (runMain emptyEnv) = false :=
  c2_empty_targets emptyEnv rfl

/-- Claim C3 counterexample: a logged-in run whose single target's
extraction raises and whose diagnostic screenshot also raises — the
exception escapes the loop, `main` has no `try/finally`, and
`crawler.close()` never runs even though the session was started. -/
theorem c3_counterexample :
    sessionStarted (runMain abortEnv) = true ∧
    sessionClosed (runMain abortEnv) = false ∧
    runMain abortEnv = .aborted [] "screenshot error" := by
  decide

/-- Claim C3, amended: once the session has started, the close path
runs exactly on the two exits the source codes explicitly — login
timeout (line 228) and normal completion (line 290); when an error
propagates out of the extraction loop (such as a screenshot failure
while handling a failed extraction) there is no `finally`, so the
session is not released. -/
theorem c3_close_on_exit (env : Env) (h : sessionStarted (runMain env) = true) :
    sessionClosed (runMain env) = true ↔
      (runMain env = .loginTimeout ∨ ∃ rs, runMain env = .completed rs) := by
  cases hr : runMain env with
  | noTargets =>
      rw [hr] at h
      exact absurd h (by decide)
  | loginTimeout => simp [sessionClosed]
  | aborted rs m => simp [sessionClosed]
  | completed rs => simp [sessionClosed]

/-- Claim C3 witness: a started run that completes normally. -/
theorem c3_close_on_exit_witness :
    sessionStarted (runMain okEnv) = true ∧
    (sessionClosed (runMain okEnv) = true ↔
      (runMain okEnv = .loginTimeout ∨ ∃ rs, runMain okEnv = .completed rs)) :=
  ⟨by decide, c3_close_on_exit okEnv (by decide)⟩

/-- Under a non-propagating behaviour, `extract_job_details` returns a
record. -/
lemma extract_returns (url now : String) (b : Behavior) (h : noPropagate b) :
    ∃ r, extractJobDetails url now b = .record r := by
  cases b with
  | page p => exact ⟨_, rfl⟩
  | raise msg sshot =>
      cases sshot with
      | none => exact ⟨_, rfl⟩
      | some m => exact h.elim

/-- Every record returned by `extract_job_details` carries its input
URL under the `url` key. -/
lemma extract_url_key (url now : String) (b : Behavior) (r : Record)
    (h : extractJobDetails url now b = .record r) :
    rlookup r "url" = some (.vs url) := by
  cases b with
  | page p =>
      have hr : successRecord url now p = r := by simpa [extractJobDetails] using h
      subst hr
      rfl
  | raise msg sshot =>
      cases sshot with
      | none =>
          have hr : failedRecord url msg now = r := by simpa [extractJobDetails] using h
          subst hr
          rfl
      | some m => simp [extractJobDetails] at h

/-- One unfolding step of the extraction loop when the current call
returns a record. -/
lemma runLoop_cons_record (env : Env) (start : Nat) (url : String) (rest : List String)
    (r : Record) (hr : extractJobDetails url (env.now start) (env.behavior start) = .record r) :
    runLoop env start (url :: rest)
      = (r :: (runLoop env (start + 1) rest).1, (runLoop env (start + 1) rest).2) := by
  rcases h2 : runLoop env (start + 1) rest with ⟨rs, e⟩
  simp [runLoop, hr, h2]

/-- When every remaining target behaviour is non-propagating, the
extraction loop returns one record per target, in input order, each
carrying its target's URL. -/
lemma runLoop_no_propagate (env : Env) :
    ∀ (links : List String) (start : Nat),
      (∀ j, j < links.length → noPropagate (env.behavior (start + j))) →
      (runLoop env start links).2 = none ∧
      (runLoop env start links).1.length = links.length ∧
      ∀ i, (h1 : i < (runLoop env start links).1.length) → (h2 : i < links.length) →
        rlookup ((runLoop env start links).1.get ⟨i, h1⟩) "url"
          = some (.vs (links.get ⟨i, h2⟩)) := by
  intro links
  induction links with
  | nil =>
      intro start _
      exact ⟨rfl, rfl, fun i h1 h2 => absurd h2 (by simp)⟩
  | cons url rest ih =>
      intro start hok
      obtain ⟨r, hr⟩ :=
        extract_returns url (env.now start) (env.behavior start)
          (by simpa using hok 0 (by simp))
      have hrest := ih (start + 1) (fun j hj => by
        have hj' := hok (j + 1) (by simpa using Nat.succ_lt_succ hj)
        rw [show start + (j + 1) = start + 1 + j by omega] at hj'
        exact hj')
      rw [runLoop_cons_record env start url rest r hr]
      refine ⟨hrest.1, by simpa using hrest.2.1, ?_⟩
      intro i h1 h2
      cases i with
      | zero => simpa using extract_url_key url (env.now start) (env.behavior start) r hr
      | succ i' =>
          have h1' : i' < (runLoop env (start + 1) rest).1.length := by
            simpa using Nat.lt_of_succ_lt_succ h1
          have h2' : i' < rest.length := by
            simpa using Nat.lt_of_succ_lt_succ h2
          simpa using hrest.2.2 i' h1' h2'

/-- Claim C4 counterexample: a logged-in run over one target whose
extraction raises and whose diagnostic screenshot also raises — the
run aborts with zero records instead of producing one failed record
per target. -/
theorem c4_counterexample :
    abortEnv.jobLinks.length = 1 ∧
    ensureLoggedIn abortEnv.loginProbe = true ∧
    runMain abortEnv = .aborted [] "screenshot error" ∧
    writerInvoked (runMain abortEnv) = false := by
  decide

/-- Claim C4, amended: provided every target's extraction returns a
record — that is, no failed extraction's diagnostic screenshot itself
raises — a logged-in run over N ≥ 1 targets completes with exactly N
records, one per target in input order (each record carries its
target's URL), failed records appended exactly like successful ones;
when a screenshot call raises, the run aborts instead. -/
theorem c4_run_in_order (env : Env) (hne : env.jobLinks ≠ [])
    (hlogin : ensureLoggedIn env.loginProbe = true)
    (hok : ∀ j, j < env.jobLinks.length → noPropagate (env.behavior j)) :
    ∃ rs, runMain env = .completed rs ∧ rs.length = env.jobLinks.length ∧
      ∀ i, (h1 : i < rs.length) → (h2 : i < env.jobLinks.length) →
        rlookup (rs.get ⟨i, h1⟩) "url" = some (.vs (env.jobLinks.get ⟨i, h2⟩)) := by
  have hloop := runLoop_no_propagate env env.jobLinks 0 (fun j hj => by simpa using hok j hj)
  have hempty : env.jobLinks.isEmpty = false := by
    cases hl : env.jobLinks with
    | nil => exact absurd hl hne
    | cons a l => rfl
  rcases hrl : runLoop env 0 env.jobLinks with ⟨rs, e⟩
  rw [hrl] at hloop
  have he : e = none := hloop.1
  subst he
  refine ⟨rs, ?_, by simpa using hloop.2.1, fun i h1 h2 => by simpa using hloop.2.2 i h1 h2⟩
  simp [runMain, hempty, hlogin, hrl]

/-- Claim C4 witness for the amended statement: two targets, both of
which fail with successful screenshots — the run still completes with
two failed records in input order. -/
theorem c4_run_in_order_witness :
    ∃ rs, runMain twoEnv = .completed rs ∧ rs.length = twoEnv.jobLinks.length ∧
      ∀ i, (h1 : i < rs.length) → (h2 : i < twoEnv.jobLinks.length) →
        rlookup (rs.get ⟨i, h1⟩) "url" = some (.vs (twoEnv.jobLinks.get ⟨i, h2⟩)) :=
  c4_run_in_order twoEnv (by decide) (by decide) (fun j _ => trivial)

/-- Membership in the folded field-name set: a key is collected
exactly when some record contains it. -/
lemma mem_fieldFold (records : List Record) (init : Finset String) (k : String) :
    (k ∈ records.foldl (fun (s : Finset String) (r : Record) => s ∪ (r.map Prod.fst).toFinset) init)
      ↔ k ∈ init ∨ ∃ r ∈ records, k ∈ r.map Prod.fst := by
  induction records generalizing init with
  | nil => simp
  | cons r rest ih =>
      simp only [List.foldl_cons]
      rw [ih]
      simp only [Finset.mem_union, List.mem_toFinset, List.mem_cons]
      constructor
      · rintro (⟨hk | hk⟩ | ⟨r', hr', hk⟩)
        · exact Or.inl hk
        · exact Or.inr ⟨r, Or.inl rfl, hk⟩
        · exact Or.inr ⟨r', Or.inr hr', hk⟩
      · rintro (hk | ⟨r', hr' | hr', hk⟩)
        · exact Or.inl (Or.inl hk)
        · exact Or.inl (Or.inr (hr' ▸ hk))
        · exact Or.inr ⟨r', hr', hk⟩

/-- Claim C9: the CSV export's header row is the sorted,
duplicate-free union of the field names across all records, and every
record is written as exactly one row with one cell per header — the
record's value when the key is present, the empty-string `restval`
otherwise. -/
theorem c9_csv_export_shape (records : List Record) :
    ((fieldnamesOf records).Sorted (· ≤ ·) ∧ (fieldnamesOf records).Nodup ∧
      ∀ k, k ∈ fieldnamesOf records ↔ ∃ r ∈ records, k ∈ r.map Prod.fst) ∧
    ((csvExport records).length = records.length + 1 ∧
      ∀ r : Record, (rowOf (fieldnamesOf records) r).length = (fieldnamesOf records).length ∧
        rowOf (fieldnamesOf records) r
          = (fieldnamesOf records).map (fun h => (rlookup r h).elim "" showRVal)) := by
  refine ⟨⟨?_, ?_, ?_⟩, ?_, ?_⟩
  · exact Finset.sort_sorted _ _
  · exact Finset.sort_nodup _ _
  · intro k
    unfold fieldnamesOf
    rw [Finset.mem_sort]
    simpa using mem_fieldFold records ∅ k
  · simp [csvExport]
  · intro r
    exact ⟨by simp [rowOf], rfl⟩

end BossCrawl
